import Mathlib

/-!
Verification of the dual-metric chart synchronization, correlation,
experiment-results and community-voting logic of a self-tracking web
application.  Numeric values are modelled by `ℚ` (the source uses JS numbers
on small exact decimals), nullable values by `Option`, and database tables by
lists of rows.  Calendar dates that the source compares as ISO-8601 strings
(whose lexicographic order coincides with chronological order) are modelled
by `ℕ` day numbers.
-/

/-- The `type` tag of a `TrackableItem` (src/unnamed/part_001, `@/lib/types`). -/
inductive MetricType
  | NUMERIC
  | SCALE_1_10
  | BOOLEAN
  | TEXT
deriving DecidableEq, Repr

/-- One point of `DualMetricChartData` (src/unnamed/part_001 lines 25-31).
`none` stands for both `null` and `undefined`, which the source always tests
together. -/
structure DataPoint where
  date : String
  formattedDate : String
  primaryValue : Option ℚ
  comparisonValue : Option ℚ
  normalizedComparisonValue : Option ℚ
deriving DecidableEq, Repr

/-- `AxisConfig` (src/unnamed/part_001 lines 33-39). -/
structure AxisConfig where
  leftDomain : ℚ × ℚ
  rightDomain : ℚ × ℚ
  rightTickFormatter : Option (ℚ → String)
  rightTicks : Option (List ℚ)
  normalizeComparison : Bool

/-- JavaScript `Math.round`: half-way cases round toward positive infinity. -/
def jsRound (q : ℚ) : ℤ := ⌊q + 1 / 2⌋

/-- Scenario A right-axis tick formatter (src/unnamed/part_001 lines 109-113):
converts a scaled value back to the 1-10 scale label, empty outside 1..10. -/
def scenarioARightTickFormatter (scaledMax : ℚ) (value : ℚ) : String :=
  let scaleValue := jsRound (value / scaledMax * 10)
  if 1 ≤ scaleValue ∧ scaleValue ≤ 10 then toString scaleValue else ""

/-- Scenario C right-axis tick formatter (src/unnamed/part_001 lines 137-141). -/
def scenarioCRightTickFormatter (value : ℚ) : String :=
  if |value - 7.5| < 0.5 then "Yes"
  else if |value - 2.5| < 0.5 then "No"
  else ""

/-- Scenario C boolean normalization of one data point
(src/unnamed/part_001 lines 127-132): comparison value `1` maps to `7.5`,
`0` to `2.5`, anything else (including null) to null. -/
def normalizeBooleanPoint (d : DataPoint) : DataPoint :=
  { d with
    normalizedComparisonValue :=
      if d.comparisonValue = some 1 then some 7.5
      else if d.comparisonValue = some 0 then some 2.5
      else none }

/-- The axis-synchronization memo (src/unnamed/part_001 lines 77-158):
from the (optional) primary and comparison metric types and the raw chart
data, produce the processed chart data and the axis configuration. -/
def processChart (primaryMetric comparisonMetric : Option MetricType)
    (rawChartData : List DataPoint) : List DataPoint × Option AxisConfig :=
  match primaryMetric with
  | none => (rawChartData, none)
  | some pt =>
    if rawChartData = [] then (rawChartData, none)
    else
      let primaryValues := rawChartData.filterMap (fun d => d.primaryValue)
      let comparisonValues := rawChartData.filterMap (fun d => d.comparisonValue)
      let primaryMax := (primaryValues.max?).getD 10
      let comparisonMax := (comparisonValues.max?).getD 10
      match comparisonMetric with
      | none =>
        -- Single metric - simple configuration
        (rawChartData,
          some { leftDomain :=
                   if pt = MetricType.SCALE_1_10 then (1, 10)
                   else (0, max (primaryMax * 1.1) 1),
                 rightDomain := (0, 10),
                 rightTickFormatter := none,
                 rightTicks := none,
                 normalizeComparison := false })
      | some ct =>
        if pt = MetricType.NUMERIC ∧ ct = MetricType.SCALE_1_10 then
          -- Scenario A: Primary NUMERIC, Comparison SCALE_1_10
          let scaledMax := max (primaryMax * 1.1) 1
          (rawChartData,
            some { leftDomain := (0, scaledMax),
                   rightDomain := (0, scaledMax),
                   rightTickFormatter := some (scenarioARightTickFormatter scaledMax),
                   rightTicks :=
                     some ((List.range 10).map
                       (fun i => (((i : ℚ) + 1) / 10) * scaledMax)),
                   normalizeComparison := false })
        else if pt = MetricType.SCALE_1_10 ∧ ct = MetricType.NUMERIC then
          -- Scenario B: Primary SCALE_1_10, Comparison NUMERIC
          (rawChartData,
            some { leftDomain := (1, 10),
                   rightDomain := (0, max (comparisonMax * 1.1) 1),
                   rightTickFormatter := none,
                   rightTicks := none,
                   normalizeComparison := false })
        else if pt = MetricType.SCALE_1_10 ∧ ct = MetricType.BOOLEAN then
          -- Scenario C: Primary SCALE_1_10, Comparison BOOLEAN
          (rawChartData.map normalizeBooleanPoint,
            some { leftDomain := (1, 10),
                   rightDomain := (1, 10),
                   rightTickFormatter := some scenarioCRightTickFormatter,
                   rightTicks := some [2.5, 7.5],
                   normalizeComparison := true })
        else
          -- Default case - both same type or other combinations
          let leftMax :=
            if pt = MetricType.SCALE_1_10 then 10 else max (primaryMax * 1.1) 1
          let rightMax :=
            if ct = MetricType.SCALE_1_10 then 10 else max (comparisonMax * 1.1) 1
          (rawChartData,
            some { leftDomain :=
                     if pt = MetricType.SCALE_1_10 then (1, 10) else (0, leftMax),
                   rightDomain :=
                     if ct = MetricType.SCALE_1_10 then (1, 10) else (0, rightMax),
                   rightTickFormatter := none,
                   rightTicks := none,
                   normalizeComparison := false })

/-- The inner join performed by the correlation memo
(src/unnamed/part_001 lines 170-181): the points where BOTH metrics have a
value, as (primary, comparison) pairs in data order. -/
def innerJoinPairs (chartData : List DataPoint) : List (ℚ × ℚ) :=
  chartData.filterMap (fun d =>
    match d.primaryValue, d.comparisonValue with
    | some p, some c => some (p, c)
    | _, _ => none)

/-- The correlation-score memo (src/unnamed/part_001 lines 161-189),
parametric in the external `calculatePearsonCorrelation` from
`@/lib/correlation` (that function is not part of this repository slice; the
memo only forwards the joined pairs to it). -/
def correlationScore (pearson : List ℚ → List ℚ → Option ℚ)
    (primaryMetric comparisonMetric : Option MetricType)
    (comparisonSelected : Bool) (chartData : List DataPoint) : Option ℚ :=
  if primaryMetric = none ∨ comparisonMetric = none ∨
      comparisonSelected = false ∨ chartData = [] then
    none
  else
    let pairs := innerJoinPairs chartData
    if pairs.length ≥ 2 then
      pearson (pairs.map Prod.fst) (pairs.map Prod.snd)
    else
      none

/-! ### Experiment results (src/unnamed/part_000 lines 404-643) -/

/-- JavaScript `toFixed(1)`: round half away from zero to one decimal digit
and print it. -/
def toFixed1 (q : ℚ) : String :=
  let scaled : ℤ := if 0 ≤ q then ⌊q * 10 + 1 / 2⌋ else -⌊-q * 10 + 1 / 2⌋
  let sign := if scaled < 0 then "-" else ""
  sign ++ toString (scaled.natAbs / 10) ++ "." ++ toString (scaled.natAbs % 10)

/-- Modelled from the spec: `analyzeExperimentResults` (in `@/lib/experiments`)
is not under src/; spec §4.3 Group Statistics defines its per-group output:
the count of days with a valid dependent-variable value and the arithmetic
mean of those values, with a zero-qualifying-day group reporting a `null`
mean (never zero) and a zero count. -/
def groupStats (values : List ℚ) : Option ℚ × ℕ :=
  if values = [] then (none, 0)
  else (some (values.sum / values.length), values.length)

/-- The between-group difference of `ExperimentResultsDialog`
(src/unnamed/part_000 lines 430-432): computed only when both averages are
non-null. -/
def experimentDifference (pos neg : Option ℚ) : Option ℚ :=
  match pos, neg with
  | some p, some n => some (p - n)
  | _, _ => none

/-- The average rendering of `ExperimentResultsDialog`
(src/unnamed/part_000 lines 553-554 and 571-572): a null average renders as
"N/A", a present one as its `toFixed(1)` text. -/
def renderAverage (avg : Option ℚ) : String :=
  match avg with
  | some a => toFixed1 a
  | none => "N/A"

/-! ### Community voting (src/unnamed/part_000 lines 231-354) -/

inductive VoteType
  | upvote
  | downvote
deriving DecidableEq, Repr

/-- One row of the `finding_votes` table. -/
structure VoteRow where
  user_id : String
  finding_id : String
  vote_type : VoteType
deriving DecidableEq, Repr

/-- The `(user_id, finding_id)` filter used by every vote query
(src/unnamed/part_000 lines 262-263, 282-283, 296-297). -/
def keyMatches (u f : String) (r : VoteRow) : Bool :=
  r.user_id == u && r.finding_id == f

/-- The existing-vote lookup (src/unnamed/part_000 lines 259-264). -/
def findVote (table : List VoteRow) (u f : String) : Option VoteRow :=
  table.find? (keyMatches u f)

/-- Number of vote rows for one `(user, finding)` pair. -/
def voteCount (table : List VoteRow) (u f : String) : ℕ :=
  table.countP (keyMatches u f)

/-- The database effect of `castVoteAction` when every statement succeeds
(src/unnamed/part_000 lines 273-321): same-type vote deletes the row,
opposite-type vote updates it in place, otherwise a new row is inserted. -/
def castVote (table : List VoteRow) (u f : String) (vt : VoteType) :
    List VoteRow :=
  match findVote table u f with
  | some existing =>
    if existing.vote_type = vt then
      table.filter (fun r => !(keyMatches u f r))
    else
      table.map (fun r =>
        if keyMatches u f r then { r with vote_type := vt } else r)
  | none => table ++ [⟨u, f, vt⟩]

/-- Outcome of the `vote-processor` edge-function invocation
(src/unnamed/part_000 lines 323-339): it can succeed, resolve with an error
value, or throw. -/
inductive ProcOutcome
  | ok
  | errResult (msg : String)
  | thrown (msg : String)
deriving DecidableEq, Repr

/-- Possible failures of the database statements issued by `castVoteAction`
(`none` = the statement succeeded). -/
structure DbErrors where
  fetchError : Option String
  deleteError : Option String
  updateError : Option String
  insertError : Option String
deriving DecidableEq, Repr

/-- Result value of `castVoteAction`: `{ success: true }` or `{ error }`. -/
inductive VoteActionResult
  | success
  | failure (msg : String)
deriving DecidableEq, Repr

/-- The tail of `castVoteAction` after the vote row has been written
(src/unnamed/part_000 lines 323-348): the edge-function outcome is logged but
never surfaced; each branch falls through to the success return. -/
def afterVoteWrite (proc : ProcOutcome) : VoteActionResult :=
  match proc with
  | ProcOutcome.ok => VoteActionResult.success
  | ProcOutcome.errResult _ => VoteActionResult.success
  | ProcOutcome.thrown _ => VoteActionResult.success

/-- `castVoteAction` (src/unnamed/part_000 lines 232-354): validation, auth
check, existing-vote fetch, then delete / update / insert, then the
vote-processor call.  Returns the action result and the resulting table. -/
def castVoteAction (auth : Option String) (userId findingId : String)
    (vt : VoteType) (table : List VoteRow) (db : DbErrors)
    (proc : ProcOutcome) : VoteActionResult × List VoteRow :=
  if userId = "" ∨ findingId = "" then
    (VoteActionResult.failure "User and Finding ID are required.", table)
  else if auth ≠ some userId then
    (VoteActionResult.failure "You must be logged in to vote.", table)
  else
    match db.fetchError with
    | some e =>
      (VoteActionResult.failure ("Failed to check existing vote: " ++ e), table)
    | none =>
      match findVote table userId findingId with
      | some existing =>
        if existing.vote_type = vt then
          match db.deleteError with
          | some e =>
            (VoteActionResult.failure ("Failed to remove vote: " ++ e), table)
          | none =>
            (afterVoteWrite proc,
             table.filter (fun r => !(keyMatches userId findingId r)))
        else
          match db.updateError with
          | some e =>
            (VoteActionResult.failure ("Failed to update vote: " ++ e), table)
          | none =>
            (afterVoteWrite proc,
             table.map (fun r =>
               if keyMatches userId findingId r then { r with vote_type := vt }
               else r))
      | none =>
        match db.insertError with
        | some e =>
          (VoteActionResult.failure ("Failed to create vote: " ++ e), table)
        | none =>
          (afterVoteWrite proc, table ++ [⟨userId, findingId, vt⟩])

/-! ### Experiment lifecycle (src/app/(app)/lab/page.tsx) -/

inductive ExperimentStatus
  | ACTIVE
  | COMPLETED
deriving DecidableEq, Repr

/-- An experiment as the lab page sees it.  The source stores dates as
ISO-8601 strings and compares them with `<`; since that lexicographic order
is chronological order, dates are modelled as day numbers. -/
structure Experiment where
  id : String
  status : ExperimentStatus
  start_date : ℕ
  end_date : ℕ
deriving DecidableEq, Repr

/-- The `activeExperiments` memo (src/app/(app)/lab/page.tsx lines 73-83):
one pass over the experiment list that collects the experiments shown as
active and the automatic status mutations it fires.  An `ACTIVE` experiment
whose `end_date` is strictly before today is mutated to `COMPLETED` and
excluded from the active list. -/
def processExperiments (today : ℕ) (exps : List Experiment) :
    List Experiment × List (Experiment × ExperimentStatus) :=
  match exps with
  | [] => ([], [])
  | e :: rest =>
    let (act, muts) := processExperiments today rest
    if e.status = ExperimentStatus.ACTIVE ∧ e.end_date < today then
      (act, (e, ExperimentStatus.COMPLETED) :: muts)
    else if e.status = ExperimentStatus.ACTIVE then
      (e :: act, muts)
    else
      (act, muts)

/-- The experiments rendered in the Active tab. -/
def activeExperiments (today : ℕ) (exps : List Experiment) : List Experiment :=
  (processExperiments today exps).1

/-- The automatic `updateExperimentStatus` mutations fired while filtering. -/
def autoCompleteMutations (today : ℕ) (exps : List Experiment) :
    List (Experiment × ExperimentStatus) :=
  (processExperiments today exps).2

/-- The manual status transitions offered on an experiment card
(src/app/(app)/lab/page.tsx lines 392-413): the Complete button
(target `COMPLETED`) renders only when the experiment is `ACTIVE`, the
Reactivate button (target `ACTIVE`) only when it is `COMPLETED`. -/
def renderedStatusActions (e : Experiment) : List ExperimentStatus :=
  (if e.status = ExperimentStatus.ACTIVE then [ExperimentStatus.COMPLETED]
   else []) ++
  (if e.status = ExperimentStatus.COMPLETED then [ExperimentStatus.ACTIVE]
   else [])

/-! ### Concrete sample inputs used as witnesses -/

/-- A chart day on which neither metric was logged. -/
def allNullPoint : DataPoint :=
  ⟨"2025-01-01", "Jan 1", none, none, none⟩

/-- A chart day with primary value 5 and boolean comparison value true (1). -/
def scalePoint : DataPoint :=
  ⟨"2025-01-02", "Jan 2", some 5, some 1, none⟩

/-- A chart day with only the primary metric logged (value 5). -/
def primaryOnlyPoint : DataPoint :=
  ⟨"2025-01-03", "Jan 3", some 5, none, none⟩

/-- A sample experiment running from day 100 to day 200. -/
def expA : Experiment :=
  ⟨"exp-1", ExperimentStatus.ACTIVE, 100, 200⟩

/-! ### Helper lemmas -/

theorem afterVoteWrite_eq_success (proc : ProcOutcome) :
    afterVoteWrite proc = VoteActionResult.success := by
  cases proc <;> rfl

theorem normalizeBooleanPoint_primaryValue (d : DataPoint) :
    (normalizeBooleanPoint d).primaryValue = d.primaryValue := rfl

theorem normalizeBooleanPoint_comparisonValue (d : DataPoint) :
    (normalizeBooleanPoint d).comparisonValue = d.comparisonValue := rfl

theorem innerJoinPairs_map_normalize (l : List DataPoint) :
    innerJoinPairs (l.map normalizeBooleanPoint) = innerJoinPairs l := by
  unfold innerJoinPairs
  rw [List.filterMap_map]
  rfl

theorem keyMatches_after_update (u' f' u f : String) (vt : VoteType)
    (x : VoteRow) :
    keyMatches u' f'
        (if keyMatches u f x then { x with vote_type := vt } else x)
      = keyMatches u' f' x := by
  by_cases h : keyMatches u f x
  · simp only [h, if_true]
    rfl
  · simp only [h, Bool.false_eq_true, if_false]

theorem processExperiments_sound (today : ℕ) (exps : List Experiment) :
    (∀ e ∈ (processExperiments today exps).1,
        e.status = ExperimentStatus.ACTIVE ∧ ¬ e.end_date < today) ∧
    (∀ p ∈ (processExperiments today exps).2,
        p.1.status = ExperimentStatus.ACTIVE ∧ p.1.end_date < today ∧
        p.2 = ExperimentStatus.COMPLETED) := by
  induction exps with
  | nil => simp [processExperiments]
  | cons a rest ih =>
    obtain ⟨ih1, ih2⟩ := ih
    by_cases h1 : a.status = ExperimentStatus.ACTIVE ∧ a.end_date < today
    · constructor
      · intro e he
        exact ih1 e (by simpa [processExperiments, h1] using he)
      · intro p hp
        rw [show (processExperiments today (a :: rest)).2
              = (a, ExperimentStatus.COMPLETED) :: (processExperiments today rest).2 by
            simp [processExperiments, h1]] at hp
        rcases List.mem_cons.mp hp with rfl | hp
        · exact ⟨h1.1, h1.2, rfl⟩
        · exact ih2 p hp
    · by_cases h2 : a.status = ExperimentStatus.ACTIVE
      · have hend : ¬ a.end_date < today := fun hlt => h1 ⟨h2, hlt⟩
        constructor
        · intro e he
          rw [show (processExperiments today (a :: rest)).1
                = a :: (processExperiments today rest).1 by
              simp [processExperiments, h1, h2, hend]] at he
          rcases List.mem_cons.mp he with rfl | he
          · exact ⟨h2, hend⟩
          · exact ih1 e he
        · intro p hp
          exact ih2 p (by simpa [processExperiments, h1, h2, hend] using hp)
      · constructor
        · intro e he
          exact ih1 e (by simpa [processExperiments, h1, h2] using he)
        · intro p hp
          exact ih2 p (by simpa [processExperiments, h1, h2] using hp)

/-! ### Claim theorems -/

/-- C1: in the SCALE_1_10 / BOOLEAN scenario the axis synchronizer produces
`rightTicks = [2.5, 7.5]`, `rightDomain = [1, 10]`, sets
`normalizeComparison` to true, and maps each point's comparison value 1 to
normalized value 7.5, 0 to 2.5, and a null comparison value to null. -/
theorem scenarioC_boolean_normalization (data : List DataPoint)
    (hne : data ≠ []) :
    ((processChart (some MetricType.SCALE_1_10) (some MetricType.BOOLEAN)
        data).2.map (fun c => c.rightTicks) = some (some [2.5, 7.5])) ∧
    ((processChart (some MetricType.SCALE_1_10) (some MetricType.BOOLEAN)
        data).2.map (fun c => c.rightDomain) = some (1, 10)) ∧
    ((processChart (some MetricType.SCALE_1_10) (some MetricType.BOOLEAN)
        data).2.map (fun c => c.normalizeComparison) = some true) ∧
    ((processChart (some MetricType.SCALE_1_10) (some MetricType.BOOLEAN)
        data).1 = data.map normalizeBooleanPoint) ∧
    (∀ d : DataPoint, d.comparisonValue = some 1 →
        (normalizeBooleanPoint d).normalizedComparisonValue = some 7.5) ∧
    (∀ d : DataPoint, d.comparisonValue = some 0 →
        (normalizeBooleanPoint d).normalizedComparisonValue = some 2.5) ∧
    (∀ d : DataPoint, d.comparisonValue = none →
        (normalizeBooleanPoint d).normalizedComparisonValue = none) := by
  refine ⟨?_, ?_, ?_, ?_, ?_, ?_, ?_⟩
  · simp [processChart, hne]
  · simp [processChart, hne]
  · simp [processChart, hne]
  · simp [processChart, hne]
  · intro d h
    simp [normalizeBooleanPoint, h]
  · intro d h
    simp [normalizeBooleanPoint, h]
  · intro d h
    simp [normalizeBooleanPoint, h]

theorem scenarioC_boolean_normalization_witness :
    (processChart (some MetricType.SCALE_1_10) (some MetricType.BOOLEAN)
        [scalePoint]).2.map (fun c => c.rightTicks)
      = some (some [2.5, 7.5]) :=
  (scenarioC_boolean_normalization [scalePoint] (by decide)).1

/-- C3 counterexample: a dataset where every primary value is null, charted
with a NUMERIC primary metric, yields a left-axis domain of [0, 11]
(the default maximum 10 is still multiplied by 1.1), not [0, 10] as the
claim states. -/
theorem allNull_domain_not_zero_ten :
    (processChart (some MetricType.NUMERIC) none [allNullPoint]).2.map
        (fun c => c.leftDomain) = some ((0 : ℚ), 11) ∧
    (processChart (some MetricType.NUMERIC) none [allNullPoint]).2.map
        (fun c => c.leftDomain) ≠ some ((0 : ℚ), 10) := by
  have h : (processChart (some MetricType.NUMERIC) none [allNullPoint]).2.map
      (fun c => c.leftDomain) = some ((0 : ℚ), 11) := by
    simp [processChart, allNullPoint]
    norm_num [max_def]
  refine ⟨h, ?_⟩
  rw [h]
  simp

/-- C3 amended: when every observed value of a NUMERIC-typed series is null,
that series' maximum falls back to 10, so the axis domain derived for it is
[0, max(10 * 1.1, 1)] = [0, 11], not [0, 10]. -/
theorem allNull_domain_fallback :
    (∀ (comparison : Option MetricType) (data : List DataPoint),
      data ≠ [] → (∀ d ∈ data, d.primaryValue = none) →
      (processChart (some MetricType.NUMERIC) comparison data).2.map
          (fun c => c.leftDomain) = some ((0 : ℚ), 11)) ∧
    (∀ (pt : MetricType) (data : List DataPoint),
      data ≠ [] → (∀ d ∈ data, d.comparisonValue = none) →
      (processChart (some pt) (some MetricType.NUMERIC) data).2.map
          (fun c => c.rightDomain) = some ((0 : ℚ), 11)) := by
  constructor
  · intro comparison data hne hall
    have hfm : data.filterMap (fun d => d.primaryValue) = [] :=
      List.filterMap_eq_nil_iff.mpr hall
    rcases comparison with _ | ct
    · simp [processChart, hne, hfm]
      norm_num [max_def]
    · cases ct <;>
        · simp [processChart, hne, hfm]
          norm_num [max_def]
  · intro pt data hne hall
    have hfm : data.filterMap (fun d => d.comparisonValue) = [] :=
      List.filterMap_eq_nil_iff.mpr hall
    cases pt <;>
      · simp [processChart, hne, hfm]
        norm_num [max_def]

theorem allNull_domain_fallback_witness :
    (processChart (some MetricType.SCALE_1_10) (some MetricType.NUMERIC)
        [allNullPoint]).2.map (fun c => c.rightDomain)
      = some ((0 : ℚ), 11) :=
  allNull_domain_fallback.2 MetricType.SCALE_1_10 [allNullPoint] (by decide)
    (by decide)

/-- C4: for a non-empty dataset with at least one non-null primary value of
maximum m, the left axis domain is [1, 10] when the primary metric's type is
SCALE_1_10 and [0, max(m * 1.1, 1)] otherwise, across the single-metric
case, the named scenarios and the default case. -/
theorem leftDomain_spec (pt : MetricType) (comparison : Option MetricType)
    (data : List DataPoint) (m : ℚ) (hne : data ≠ [])
    (hmax : (data.filterMap (fun d => d.primaryValue)).max? = some m) :
    (processChart (some pt) comparison data).2.map (fun c => c.leftDomain)
      = some (if pt = MetricType.SCALE_1_10 then ((1 : ℚ), 10)
              else (0, max (m * 1.1) 1)) := by
  rcases comparison with _ | ct
  · cases pt <;> simp [processChart, hne, hmax]
  · cases pt <;> cases ct <;> simp [processChart, hne, hmax]

theorem leftDomain_spec_witness :
    (processChart (some MetricType.NUMERIC) none [primaryOnlyPoint]).2.map
        (fun c => c.leftDomain)
      = some (if MetricType.NUMERIC = MetricType.SCALE_1_10
              then ((1 : ℚ), 10) else (0, max ((5 : ℚ) * 1.1) 1)) :=
  leftDomain_spec MetricType.NUMERIC none [primaryOnlyPoint] 5 (by decide)
    (by decide)

/-- C2: the correlation score is the Pearson function applied to exactly the
inner join of days where both values are non-null, and it is null whenever
no comparison metric is selected, the chart data is empty, or fewer than two
paired points exist. -/
theorem correlationScore_inner_join (pearson : List ℚ → List ℚ → Option ℚ)
    (pm cm : Option MetricType) (sel : Bool) (data : List DataPoint) :
    correlationScore pearson pm cm sel data =
      if pm = none ∨ cm = none ∨ sel = false ∨ data = [] ∨
          (innerJoinPairs data).length < 2 then
        none
      else
        pearson ((innerJoinPairs data).map Prod.fst)
          ((innerJoinPairs data).map Prod.snd) := by
  unfold correlationScore
  by_cases h1 : pm = none ∨ cm = none ∨ sel = false ∨ data = []
  · rw [if_pos h1, if_pos (by tauto)]
  · rw [if_neg h1]
    by_cases h2 : (innerJoinPairs data).length ≥ 2
    · rw [if_pos h2, if_neg (by push_neg at h1 ⊢; exact ⟨h1.1, h1.2.1, h1.2.2.1, h1.2.2.2, by omega⟩)]
    · rw [if_neg h2, if_pos (by right; right; right; right; omega)]

/-- C9: the correlation score is computed from the original comparison
values: running it on the boolean-normalized chart data of the
SCALE_1_10 / BOOLEAN scenario gives the same result as on the raw data. -/
theorem correlation_unchanged_by_normalization
    (pearson : List ℚ → List ℚ → Option ℚ) (pm cm : Option MetricType)
    (sel : Bool) (raw : List DataPoint) :
    correlationScore pearson pm cm sel
        ((processChart (some MetricType.SCALE_1_10) (some MetricType.BOOLEAN)
            raw).1)
      = correlationScore pearson pm cm sel raw := by
  rcases eq_or_ne raw [] with h | h
  · subst h
    rfl
  · have h1 : (processChart (some MetricType.SCALE_1_10)
        (some MetricType.BOOLEAN) raw).1 = raw.map normalizeBooleanPoint := by
      simp [processChart, h]
    rw [h1]
    unfold correlationScore
    rw [innerJoinPairs_map_normalize]
    simp only [List.map_eq_nil_iff]

/-- C5: a condition group with zero qualifying days has a null average
(never 0) and count 0; the dialog renders the null average as "N/A" while a
true zero average renders as "0.0", and the between-group difference is
computed exactly when both averages are non-null. -/
theorem groupStats_zero_days (values negValues : List ℚ)
    (h : values = []) :
    (groupStats values).1 = none ∧ (groupStats values).2 = 0 ∧
    renderAverage (groupStats values).1 = "N/A" ∧
    renderAverage (some 0) = "0.0" ∧
    (∀ p n : Option ℚ,
      (experimentDifference p n).isSome ↔ (p.isSome ∧ n.isSome)) ∧
    experimentDifference (groupStats values).1 (groupStats negValues).1
      = none := by
  subst h
  refine ⟨rfl, rfl, rfl, ?_, ?_, ?_⟩
  · show toFixed1 0 = "0.0"
    have hscaled : (if 0 ≤ (0 : ℚ) then ⌊(0 : ℚ) * 10 + 1 / 2⌋
        else -⌊-(0 : ℚ) * 10 + 1 / 2⌋) = 0 := by
      norm_num
    unfold toFixed1
    rw [hscaled]
    rfl
  · intro p n
    cases p <;> cases n <;> simp [experimentDifference]
  · rcases hn : (groupStats negValues).1 with _ | v <;> rfl

theorem groupStats_zero_days_witness :
    (groupStats []).1 = none ∧ (groupStats []).2 = 0 ∧
    renderAverage (groupStats []).1 = "N/A" ∧
    renderAverage (some 0) = "0.0" ∧
    (∀ p n : Option ℚ,
      (experimentDifference p n).isSome ↔ (p.isSome ∧ n.isSome)) ∧
    experimentDifference (groupStats []).1 (groupStats []).1 = none :=
  groupStats_zero_days [] [] rfl

/-- C8: in the NUMERIC / SCALE_1_10 scenario, the right-axis tick formatter
inverts the tick placement: for every i in 1..10 and positive scaledMax, the
i-th tick (i/10) * scaledMax is formatted as the label "i", never the empty
string. -/
theorem scenarioA_formatter_left_inverse (s : ℚ) (hs : 0 < s) (j : ℕ)
    (h1 : 1 ≤ j) (h2 : j ≤ 10) :
    scenarioARightTickFormatter s ((j : ℚ) / 10 * s) = toString ((j : ℤ)) ∧
    toString ((j : ℤ)) ≠ "" := by
  have hs0 : s ≠ 0 := ne_of_gt hs
  have hval : (j : ℚ) / 10 * s / s * 10 = ((j : ℤ) : ℚ) := by
    push_cast
    field_simp
    ring
  have hjr : jsRound (((j : ℤ) : ℚ)) = (j : ℤ) := by
    unfold jsRound
    rw [Int.floor_int_add]
    norm_num
  constructor
  · unfold scenarioARightTickFormatter
    rw [hval, hjr,
      if_pos ⟨by exact_mod_cast h1, by exact_mod_cast h2⟩]
  · interval_cases j <;> decide

theorem scenarioA_formatter_left_inverse_witness :
    scenarioARightTickFormatter 11 (((3 : ℕ) : ℚ) / 10 * 11)
        = toString (((3 : ℕ) : ℤ)) ∧
    toString (((3 : ℕ) : ℤ)) ≠ "" :=
  scenarioA_formatter_left_inverse 11 (by decide) 3 (by decide) (by decide)

/-- C6: casting a vote deletes the row on a same-type repeat vote, updates
it in place on an opposite-type vote, inserts only when no vote exists, and
preserves the invariant of at most one vote row per (user, finding) pair. -/
theorem castVote_toggle_invariant (table : List VoteRow) (u f : String)
    (vt : VoteType) (hinv : ∀ u' f', voteCount table u' f' ≤ 1) :
    (∀ r, findVote table u f = some r → r.vote_type = vt →
      castVote table u f vt = table.filter (fun x => !(keyMatches u f x)) ∧
      voteCount (castVote table u f vt) u f = 0) ∧
    (∀ r, findVote table u f = some r → r.vote_type ≠ vt →
      castVote table u f vt = table.map (fun x =>
        if keyMatches u f x then { x with vote_type := vt } else x) ∧
      voteCount (castVote table u f vt) u f = voteCount table u f) ∧
    (findVote table u f = none →
      castVote table u f vt = table ++ [⟨u, f, vt⟩] ∧
      voteCount (castVote table u f vt) u f = 1) ∧
    (∀ u' f', voteCount (castVote table u f vt) u' f' ≤ 1) := by
  have hdel : voteCount (table.filter (fun x => !(keyMatches u f x))) u f
      = 0 := by
    unfold voteCount
    rw [List.countP_filter]
    exact List.countP_eq_zero.mpr (by intro a _; simp)
  have hupd : ∀ u' f',
      voteCount (table.map (fun x =>
        if keyMatches u f x then { x with vote_type := vt } else x)) u' f'
        = voteCount table u' f' := by
    intro u' f'
    unfold voteCount
    rw [List.countP_map]
    apply List.countP_congr
    intro x _
    have h := keyMatches_after_update u' f' u f vt x
    simp only [Function.comp_apply, h]
  have hdelLe : ∀ u' f',
      voteCount (table.filter (fun x => !(keyMatches u f x))) u' f' ≤ 1 := by
    intro u' f'
    unfold voteCount
    rw [List.countP_filter]
    exact le_trans
      (List.countP_mono_left (by intro x _ hx; exact (Bool.and_elim_left hx)))
      (hinv u' f')
  have hins : findVote table u f = none →
      ∀ u' f', voteCount (table ++ [⟨u, f, vt⟩]) u' f' ≤ 1 := by
    intro hnone u' f'
    unfold voteCount
    rw [List.countP_append]
    by_cases hk : u' = u ∧ f' = f
    · obtain ⟨hku, hkf⟩ := hk
      subst hku
      subst hkf
      have h0 : table.countP (keyMatches u' f') = 0 :=
        List.countP_eq_zero.mpr (List.find?_eq_none.mp hnone)
      have h1 : List.countP (keyMatches u' f') [⟨u', f', vt⟩] = 1 := by
        simp [List.countP_cons, keyMatches]
      rw [h0, h1]
    · have hfalse : keyMatches u' f' ⟨u, f, vt⟩ = false := by
        cases hb : keyMatches u' f' ⟨u, f, vt⟩
        · rfl
        · exfalso
          apply hk
          simp only [keyMatches, Bool.and_eq_true, beq_iff_eq] at hb
          exact ⟨hb.1.symm, hb.2.symm⟩
      have h1 : List.countP (keyMatches u' f') [⟨u, f, vt⟩] = 0 := by
        simp [List.countP_cons, hfalse]
      rw [h1]
      simpa using hinv u' f'
  refine ⟨?_, ?_, ?_, ?_⟩
  · intro r hr hvt
    have hc : castVote table u f vt
        = table.filter (fun x => !(keyMatches u f x)) := by
      simp only [castVote, hr]
      rw [if_pos hvt]
    exact ⟨hc, by rw [hc]; exact hdel⟩
  · intro r hr hvt
    have hc : castVote table u f vt = table.map (fun x =>
        if keyMatches u f x then { x with vote_type := vt } else x) := by
      simp only [castVote, hr]
      rw [if_neg hvt]
    exact ⟨hc, by rw [hc]; exact hupd u f⟩
  · intro hnone
    have hc : castVote table u f vt = table ++ [⟨u, f, vt⟩] := by
      simp only [castVote, hnone]
    refine ⟨hc, ?_⟩
    rw [hc]
    unfold voteCount
    rw [List.countP_append]
    have h0 : table.countP (keyMatches u f) = 0 :=
      List.countP_eq_zero.mpr (List.find?_eq_none.mp hnone)
    simp [h0, keyMatches, List.countP_cons]
  · intro u' f'
    cases hr : findVote table u f with
    | some r =>
      by_cases hvt : r.vote_type = vt
      · rw [show castVote table u f vt
            = table.filter (fun x => !(keyMatches u f x)) by
          simp only [castVote, hr]
          rw [if_pos hvt]]
        exact hdelLe u' f'
      · rw [show castVote table u f vt = table.map (fun x =>
            if keyMatches u f x then { x with vote_type := vt } else x) by
          simp only [castVote, hr]
          rw [if_neg hvt]]
        rw [hupd u' f']
        exact hinv u' f'
    | none =>
      rw [show castVote table u f vt = table ++ [⟨u, f, vt⟩] by
        simp only [castVote, hr]]
      exact hins hr u' f'

theorem castVote_toggle_invariant_witness :
    castVote [] "u" "f" VoteType.upvote = [] ++ [⟨"u", "f", VoteType.upvote⟩] ∧
    voteCount (castVote [] "u" "f" VoteType.upvote) "u" "f" = 1 :=
  (castVote_toggle_invariant [] "u" "f" VoteType.upvote
    (fun u' f' => by simp [voteCount])).2.2.1 rfl

/-- C7: the only status transitions the lab page performs are
ACTIVE → COMPLETED (automatically when end_date is strictly before today,
or via the Complete button which renders only on ACTIVE experiments) and
COMPLETED → ACTIVE (via the Reactivate button which renders only on
COMPLETED experiments); no experiment whose end_date has passed stays in
the active list. -/
theorem experiment_status_transitions (today : ℕ) (exps : List Experiment) :
    (∀ e ∈ activeExperiments today exps,
      e.status = ExperimentStatus.ACTIVE ∧ ¬ e.end_date < today) ∧
    (∀ p ∈ autoCompleteMutations today exps,
      p.1.status = ExperimentStatus.ACTIVE ∧ p.1.end_date < today ∧
      p.2 = ExperimentStatus.COMPLETED) ∧
    (∀ e : Experiment, ∀ s ∈ renderedStatusActions e,
      (e.status = ExperimentStatus.ACTIVE ∧
        s = ExperimentStatus.COMPLETED) ∨
      (e.status = ExperimentStatus.COMPLETED ∧
        s = ExperimentStatus.ACTIVE)) := by
  refine ⟨(processExperiments_sound today exps).1,
    (processExperiments_sound today exps).2, ?_⟩
  intro e s hs
  unfold renderedStatusActions at hs
  cases he : e.status <;> simp [he] at hs <;> simp [he, hs]

theorem experiment_status_transitions_witness :
    expA.status = ExperimentStatus.ACTIVE ∧ ¬ expA.end_date < 150 :=
  (experiment_status_transitions 150 [expA]).1 expA (by decide)

/-- C10: once the vote row has been written (every database statement
succeeded), castVoteAction returns success for every outcome of the
vote-processor call, including an error result or a thrown exception, and
the resulting table is exactly the castVote table update. -/
theorem castVoteAction_ignores_processor (auth : Option String)
    (userId findingId : String) (vt : VoteType) (table : List VoteRow)
    (db : DbErrors) (proc : ProcOutcome)
    (hu : userId ≠ "") (hf : findingId ≠ "") (ha : auth = some userId)
    (hfetch : db.fetchError = none) (hdel : db.deleteError = none)
    (hupd : db.updateError = none) (hins : db.insertError = none) :
    (castVoteAction auth userId findingId vt table db proc).1
      = VoteActionResult.success ∧
    (castVoteAction auth userId findingId vt table db proc).2
      = castVote table userId findingId vt := by
  have hne : ¬(userId = "" ∨ findingId = "") := by tauto
  have hauth : ¬(auth ≠ some userId) := by simp [ha]
  cases hfind : findVote table userId findingId with
  | some r =>
    by_cases hvt : r.vote_type = vt
    · constructor
      · simp [castVoteAction, hne, hauth, hfetch, hfind, hvt, hdel,
          afterVoteWrite_eq_success]
      · simp [castVoteAction, castVote, hne, hauth, hfetch, hfind, hvt, hdel]
    · constructor
      · simp [castVoteAction, hne, hauth, hfetch, hfind, hvt, hupd,
          afterVoteWrite_eq_success]
      · simp [castVoteAction, castVote, hne, hauth, hfetch, hfind, hvt, hupd]
  | none =>
    constructor
    · simp [castVoteAction, hne, hauth, hfetch, hfind, hins,
        afterVoteWrite_eq_success]
    · simp [castVoteAction, castVote, hne, hauth, hfetch, hfind, hins]

theorem castVoteAction_ignores_processor_witness :
    (castVoteAction (some "u") "u" "f" VoteType.upvote []
        ⟨none, none, none, none⟩ (ProcOutcome.thrown "network down")).1
      = VoteActionResult.success ∧
    (castVoteAction (some "u") "u" "f" VoteType.upvote []
        ⟨none, none, none, none⟩ (ProcOutcome.thrown "network down")).2
      = castVote [] "u" "f" VoteType.upvote :=
  castVoteAction_ignores_processor (some "u") "u" "f" VoteType.upvote []
    ⟨none, none, none, none⟩ (ProcOutcome.thrown "network down")
    (by decide) (by decide) rfl rfl rfl rfl rfl
